import Mathlib

/-!
Shallow embedding of the workflow execution context cache
(service/history/execution, file cache.go of the cadence history service).

The facade functions (`GetOrCreateCurrentWorkflowExecution`,
`GetOrCreateWorkflowExecution`, `GetAndCreateWorkflowExecution`,
`getOrCreateWorkflowExecutionInternal`, `validateWorkflowExecutionInfo`,
`getCurrentExecutionWithRetry`, `makeReleaseFunc`) are translated directly
from the source.  The collaborators that the source imports from other
packages of the repository (the pin-counting LRU map of common/cache, the
retry executor of common/backoff, the transient-error predicate of the
persistence layer) are modelled from the specification, as marked on each
definition.  External side effects (Context.Clear, Context.Unlock,
pin release, metric counter increments, timer records, the canary sleeps)
are recorded as an ordered event trace in the state; Context values are
identified by the natural number under which NewContext allocated them;
Go panics are threaded explicitly as an optional fault value.
-/

namespace Cadence

/-- Execution identifier pair, mirroring types.WorkflowExecution
(fields WorkflowID and RunID). -/
structure WorkflowExecution where
  workflowID : String
  runID : String
deriving DecidableEq, Repr

/-- Key of the history cache map, mirroring definition.WorkflowIdentifier:
the tuple (domainID, workflowID, runID). -/
structure WorkflowIdentifier where
  domainID : String
  workflowID : String
  runID : String
deriving DecidableEq, Repr

/-- Mirrors definition.NewWorkflowIdentifier. -/
def NewWorkflowIdentifier (domainID workflowID runID : String) : WorkflowIdentifier :=
  { domainID := domainID, workflowID := workflowID, runID := runID }

/-- Errors crossing the facade: BadRequestError values built by the source,
cancellation of the caller scope (Context.Lock failure), the capacity
failure of the map's put, and opaque storage errors carrying the
transiency flag consulted by the retry predicate. -/
inductive Err where
  | badRequest (message : String)
  | canceled
  | capacityExhausted
  | storage (code : Nat) (transient : Bool)
deriving DecidableEq, Repr

/-- Observable side effects of the facade, recorded in program order:
context construction, Context.Clear, Context.Unlock, pin release on the
map, metric counter increments, latency timer records and stops, and the
artificial canary sleeps (milliseconds). -/
inductive Event where
  | newContext (ctxId : Nat)
  | clear (ctxId : Nat)
  | unlock (ctxId : Nat)
  | releasePin (key : WorkflowIdentifier)
  | incCounter (scope : Nat) (counter : Nat)
  | recordTimer (scope : Nat) (timer : Nat)
  | stopTimer (scope : Nat) (timer : Nat)
  | sleep (ms : Nat)
deriving DecidableEq, Repr

/-- Metric counter identifier metrics.CacheRequests (external numeric id,
value arbitrary but distinct). -/
def CacheRequests : Nat := 0

/-- Metric counter identifier metrics.CacheFailures. -/
def CacheFailures : Nat := 1

/-- Metric counter identifier metrics.CacheMissCounter. -/
def CacheMissCounter : Nat := 2

/-- Metric counter identifier metrics.AcquireLockFailedCounter. -/
def AcquireLockFailedCounter : Nat := 3

/-- Metric timer identifier metrics.CacheLatency. -/
def CacheLatency : Nat := 10

/-- Metric timer identifier metrics.LockWaitLatency. -/
def LockWaitLatency : Nat := 11

/-- Metric timer identifier metrics.LockHoldLatency. -/
def LockHoldLatency : Nat := 12

/-- Metric scope metrics.HistoryCacheGetOrCreateCurrentScope. -/
def HistoryCacheGetOrCreateCurrentScope : Nat := 20

/-- Metric scope metrics.HistoryCacheGetAndCreateScope. -/
def HistoryCacheGetAndCreateScope : Nat := 21

/-- Metric scope metrics.HistoryCacheGetOrCreateScope. -/
def HistoryCacheGetOrCreateScope : Nat := 22

/-- Metric scope metrics.HistoryCacheGetCurrentExecutionScope. -/
def HistoryCacheGetCurrentExecutionScope : Nat := 23

/-- Metric scope metrics.TimerActiveTaskDeleteHistoryEventScope. -/
def TimerActiveTaskDeleteHistoryEventScope : Nat := 24

/-- Metric scope metrics.HistoryRespondDecisionTaskCompletedScope. -/
def HistoryRespondDecisionTaskCompletedScope : Nat := 25

/-- Metric scope metrics.PersistenceUpdateWorkflowExecutionScope. -/
def PersistenceUpdateWorkflowExecutionScope : Nat := 26

/-- Metric scope metrics.TimerActiveTaskActivityTimeoutScope. -/
def TimerActiveTaskActivityTimeoutScope : Nat := 27

/-- Source constant cacheNotReleased (int32 0). -/
def cacheNotReleased : Nat := 0

/-- Source constant cacheReleased (int32 1). -/
def cacheReleased : Nat := 1

/-- One resident element of the pin-counting map: the Key, the identity of
the cached Context, and the pin count.
Modelled from the spec: the Entry of the LRU-with-TTL map (common/cache is
not under src/); the insertion timestamp used only for TTL eviction is not
modelled, since time-based eviction only removes unpinned entries and no
claim in scope depends on it. -/
structure Entry where
  key : WorkflowIdentifier
  ctxId : Nat
  pinCount : Nat
deriving DecidableEq, Repr

/-- Record of one NewContext construction: the allocated identity and the
(domainID, execution) arguments the Context is bound to.  The remaining
NewContext arguments (shard, executionManager, logger) are collaborator
handles with no observable content in this embedding. -/
structure CtxRec where
  id : Nat
  domainID : String
  execution : WorkflowExecution
deriving DecidableEq, Repr

/-- Whole observable state threaded through the facade: the map contents,
the registry of constructed Contexts, the fresh-identity counter, and the
ordered event trace. -/
structure CacheState where
  entries : List Entry
  contexts : List CtxRec
  nextCtxId : Nat
  trace : List Event
deriving DecidableEq, Repr

/-- Append one observable event to the trace. -/
def emit (st : CacheState) (e : Event) : CacheState :=
  { st with trace := st.trace ++ [e] }

/-- Collaborator NewContext(domainID, execution, shard, executionManager,
logger): pure construction of a Context bound to one key, modelled as the
allocation of a fresh identity, recorded in the registry and the trace. -/
def newContext (domainID : String) (execution : WorkflowExecution) (st : CacheState) :
    Nat × CacheState :=
  (st.nextCtxId,
   { st with
       contexts := st.contexts ++ [{ id := st.nextCtxId, domainID := domainID, execution := execution }],
       nextCtxId := st.nextCtxId + 1,
       trace := st.trace ++ [Event.newContext st.nextCtxId] })

/-- Pin increment applied to the entries holding a given key. -/
def bumpPin (k : WorkflowIdentifier) (e : Entry) : Entry :=
  if e.key = k then { e with pinCount := e.pinCount + 1 } else e

/-- Pin decrement applied to the entries holding a given key. -/
def decPin (k : WorkflowIdentifier) (e : Entry) : Entry :=
  if e.key = k then { e with pinCount := e.pinCount - 1 } else e

/-- Modelled from the spec: Get(k) of the pin-counting map (common/cache
is not under src/): if an entry for k is present, pin it (+1) and return
its Context; otherwise return absent and leave the map unchanged. -/
def cacheGet (es : List Entry) (k : WorkflowIdentifier) : Option Nat × List Entry :=
  match es.find? (fun e => decide (e.key = k)) with
  | some e => (some e.ctxId, es.map (bumpPin k))
  | none => (none, es)

/-- Modelled from the spec: PutIfNotExist(k, v) of the pin-counting map
(common/cache is not under src/): atomically insert (k, v) if no entry
exists for k, otherwise keep the existing entry; the returned element is
pinned (+1) on behalf of the caller in both cases; the insert may fail
with a capacity error, surfaced as-is. -/
def cachePutIfNotExist (es : List Entry) (k : WorkflowIdentifier) (v : Nat)
    (capacityFail : Bool) : Except Err (Nat × List Entry) :=
  match es.find? (fun e => decide (e.key = k)) with
  | some e => Except.ok (e.ctxId, es.map (bumpPin k))
  | none =>
    if capacityFail then Except.error Err.capacityExhausted
    else Except.ok (v, es ++ [{ key := k, ctxId := v, pinCount := 1 }])

/-- Modelled from the spec: Release(k) of the pin-counting map
(common/cache is not under src/): decrement the pin count of the entry
for k, if any; removal of expired zero-pin entries only deletes entries
and is not modelled. -/
def cacheRelease (es : List Entry) (k : WorkflowIdentifier) : List Entry :=
  es.map (decPin k)

/-- Pin count currently recorded for a key, zero when absent. -/
def pinOf (es : List Entry) (k : WorkflowIdentifier) : Nat :=
  match es.find? (fun e => decide (e.key = k)) with
  | some e => e.pinCount
  | none => 0

/-- State-level wrapper of the map Get. -/
def cacheGetSt (st : CacheState) (k : WorkflowIdentifier) : Option Nat × CacheState :=
  match cacheGet st.entries k with
  | (r, es) => (r, { st with entries := es })

/-- State-level wrapper of the map Release, recording the release in the
trace. -/
def releaseKey (st : CacheState) (k : WorkflowIdentifier) : CacheState :=
  { st with entries := cacheRelease st.entries k, trace := st.trace ++ [Event.releasePin k] }

/-- Reification of the closure built by makeReleaseFunc: the captured key,
Context, forceClearContext flag, caller scope, domain label, and the
atomic single-shot status flag. -/
structure ReleaseHandle where
  key : WorkflowIdentifier
  ctxId : Nat
  forceClearContext : Bool
  callerScope : Nat
  domainName : String
  status : Nat
deriving DecidableEq, Repr

/-- A ReleaseFunc value: either NoopReleaseFn or a handle built by
makeReleaseFunc. -/
inductive ReleaseFuncModel where
  | noop
  | handle (h : ReleaseHandle)
deriving DecidableEq, Repr

/-- Source value NoopReleaseFn. -/
def NoopReleaseFn : ReleaseFuncModel := ReleaseFuncModel.noop

/-- Mirrors makeReleaseFunc: capture the key, the Context, the
forceClearContext flag, the caller scope and the domain label, with the
status flag initialized to cacheNotReleased. -/
def makeReleaseFunc (key : WorkflowIdentifier) (ctxId : Nat) (forceClearContext : Bool)
    (callerScope : Nat) (domainName : String) : ReleaseFuncModel :=
  ReleaseFuncModel.handle
    { key := key, ctxId := ctxId, forceClearContext := forceClearContext,
      callerScope := callerScope, domainName := domainName, status := cacheNotReleased }

/-- Sleep events of the canary branch of the release closure, one branch
per caller scope exactly as in the source (the commented-out sleeps of the
source produce no event). -/
def sleepEvents (domainName : String) (callerScope : Nat) : List Event :=
  if domainName = "cadence-canary" then
    if callerScope = TimerActiveTaskDeleteHistoryEventScope then []
    else if callerScope = HistoryCacheGetOrCreateCurrentScope then []
    else if callerScope = HistoryRespondDecisionTaskCompletedScope then [Event.sleep 18]
    else if callerScope = PersistenceUpdateWorkflowExecutionScope then [Event.sleep 14]
    else if callerScope = TimerActiveTaskActivityTimeoutScope then [Event.sleep 5]
    else []
  else []

/-- One invocation of a ReleaseFunc, translated from the closure returned
by makeReleaseFunc.  `err` is the error argument of the closure; `fault`
is the Go panic value propagating through the deferred block (checked by
recover), threaded explicitly; the third component of the result is the
fault still propagating after the invocation (panic(rec) re-raises it).
If the compare-and-swap of the status flag fails the deferred block does
nothing and a propagating fault continues unchanged. -/
def runReleaseFunc (rf : ReleaseFuncModel) (err : Option Err) (fault : Option Nat)
    (st : CacheState) : ReleaseFuncModel × CacheState × Option Nat :=
  match rf with
  | ReleaseFuncModel.noop => (ReleaseFuncModel.noop, st, fault)
  | ReleaseFuncModel.handle h =>
    if h.status = cacheNotReleased then
      match fault with
      | some r =>
        let st₁ := emit st (Event.clear h.ctxId)
        let st₂ := emit st₁ (Event.unlock h.ctxId)
        let st₃ := emit st₂ (Event.recordTimer h.callerScope LockHoldLatency)
        let st₄ := releaseKey st₃ h.key
        (ReleaseFuncModel.handle { h with status := cacheReleased }, st₄, some r)
      | none =>
        let st₁ := if err.isSome || h.forceClearContext then emit st (Event.clear h.ctxId) else st
        let st₂ := { st₁ with trace := st₁.trace ++ sleepEvents h.domainName h.callerScope }
        let st₃ := emit st₂ (Event.unlock h.ctxId)
        let st₄ := emit st₃ (Event.recordTimer h.callerScope LockHoldLatency)
        let st₅ := releaseKey st₄ h.key
        (ReleaseFuncModel.handle { h with status := cacheReleased }, st₅, none)
    else (rf, st, fault)

/-- N successive fault-free invocations of a ReleaseFunc with the given
error arguments. -/
def runReleaseN (rf : ReleaseFuncModel) (errs : List (Option Err)) (st : CacheState) :
    ReleaseFuncModel × CacheState :=
  match errs with
  | [] => (rf, st)
  | e :: rest =>
    match runReleaseFunc rf e none st with
    | (rf', st', _) => runReleaseN rf' rest st'

/-- Modelled from the spec: persistence.IsTransientError, the predicate
handed to the retry executor; a storage error is retried exactly when its
transiency flag is set, and no other error kind is retried. -/
def isTransientError : Err → Bool
  | Err.storage _ t => t
  | _ => false

/-- Modelled from the spec: the retry executor built by
backoff.NewThrottleRetry (common/backoff is not under src/): bounded
attempts with backoff, retrying exactly the errors accepted by the
predicate.  `op i` is the outcome of attempt i supplied by the storage
oracle; `fuel` bounds the number of retries; backoff delays and jitter are
timing and are not modelled. -/
def throttleRetryDo (isRetryable : Err → Bool) (op : Nat → Except Err String)
    (attempt : Nat) (fuel : Nat) : Except Err String :=
  match op attempt with
  | Except.ok a => Except.ok a
  | Except.error e =>
    if isRetryable e then
      match fuel with
      | 0 => Except.error e
      | f + 1 => throttleRetryDo isRetryable op (attempt + 1) f
    else Except.error e

/-- Request of ExecutionManager.GetCurrentExecution, mirroring
persistence.GetCurrentExecutionRequest. -/
structure GetCurrentExecutionRequest where
  domainID : String
  workflowID : String
deriving DecidableEq, Repr

/-- Behaviour of the external collaborators for one facade call:
the storage answer per retry attempt (the RunID of the
GetCurrentExecutionResponse, or an error), the retry budget, the outcome
of Context.Lock under the caller's cancellation scope (none means the
lock was acquired), whether the map put fails with the capacity error,
the best-effort DomainCache.GetDomainName answer (none means lookup
error), and the success of uuid.Parse on a candidate run id. -/
structure Oracle where
  getCurrentExecution : GetCurrentExecutionRequest → Nat → Except Err String
  retryFuel : Nat
  lockResult : Option Err
  capacityFail : Bool
  domainName : Option String
  uuidParse : String → Bool

/-- The facade struct: of the source fields only the test hook `disabled`
carries behaviour in this embedding; shard, executionManager, logger,
metricsClient and config are collaborators represented by the Oracle and
the event trace. -/
structure Cache where
  disabled : Bool
deriving DecidableEq, Repr

/-- Successful acquisition: the Context handed to the caller and the
release function. -/
structure AcquireResult where
  ctxId : Nat
  releaseFunc : ReleaseFuncModel
deriving DecidableEq, Repr

/-- Mirrors getCurrentExecutionWithRetry: count the request, run
GetCurrentExecution through the retry executor, count a failure when the
retried call fails, and stop the latency timer on exit. -/
def getCurrentExecutionWithRetry (o : Oracle) (request : GetCurrentExecutionRequest)
    (st : CacheState) : Except Err String × CacheState :=
  let st₁ := emit st (Event.incCounter HistoryCacheGetCurrentExecutionScope CacheRequests)
  match throttleRetryDo isTransientError (o.getCurrentExecution request) 0 o.retryFuel with
  | Except.error e =>
    let st₂ := emit st₁ (Event.incCounter HistoryCacheGetCurrentExecutionScope CacheFailures)
    (Except.error e, emit st₂ (Event.stopTimer HistoryCacheGetCurrentExecutionScope CacheLatency))
  | Except.ok runID =>
    (Except.ok runID, emit st₁ (Event.stopTimer HistoryCacheGetCurrentExecutionScope CacheLatency))

/-- Mirrors validateWorkflowExecutionInfo: reject an empty WorkflowID;
resolve an empty RunID through getCurrentExecutionWithRetry and
substitute the result into the execution; reject a non-empty RunID that
uuid.Parse does not accept. -/
def validateWorkflowExecutionInfo (o : Oracle) (domainID : String)
    (execution : WorkflowExecution) (st : CacheState) :
    Except Err WorkflowExecution × CacheState :=
  if execution.workflowID = "" then
    (Except.error (Err.badRequest "Can't load workflow execution.  WorkflowId not set."), st)
  else if execution.runID = "" then
    match getCurrentExecutionWithRetry o
        { domainID := domainID, workflowID := execution.workflowID } st with
    | (Except.error e, st₁) => (Except.error e, st₁)
    | (Except.ok runID, st₁) => (Except.ok { execution with runID := runID }, st₁)
  else if o.uuidParse execution.runID = false then
    (Except.error (Err.badRequest "RunID is not valid UUID."), st)
  else
    (Except.ok execution, st)

/-- Tail of getOrCreateWorkflowExecutionInternal after the element is in
hand: fetch the domain label (failures swallowed to the empty string),
attempt Context.Lock under the caller scope; on cancellation release the
pin and count the failures; on success build the release closure.  The
LockWaitLatency timer started before the lock stops on function exit. -/
def lockAndFinish (o : Oracle) (key : WorkflowIdentifier) (ctxId : Nat) (scope : Nat)
    (forceClearContext : Bool) (callerScope : Nat) (st : CacheState) :
    Except Err AcquireResult × CacheState :=
  let domainName := o.domainName.getD ""
  match o.lockResult with
  | some e =>
    let st₁ := releaseKey st key
    let st₂ := emit st₁ (Event.incCounter scope CacheFailures)
    let st₃ := emit st₂ (Event.incCounter scope AcquireLockFailedCounter)
    (Except.error e, emit st₃ (Event.stopTimer callerScope LockWaitLatency))
  | none =>
    (Except.ok
       { ctxId := ctxId,
         releaseFunc := makeReleaseFunc key ctxId forceClearContext callerScope domainName },
     emit st (Event.stopTimer callerScope LockWaitLatency))

/-- Mirrors getOrCreateWorkflowExecutionInternal: bypass when disabled;
form the key from the execution as given; Get from the map; on miss count
the miss, construct a fresh Context and PutIfNotExist it, using the
returned element; then lock and build the release function. -/
def getOrCreateWorkflowExecutionInternal (c : Cache) (o : Oracle) (domainID : String)
    (execution : WorkflowExecution) (scope : Nat) (forceClearContext : Bool)
    (callerScope : Nat) (st : CacheState) : Except Err AcquireResult × CacheState :=
  if c.disabled then
    match newContext domainID execution st with
    | (ctxId, st₁) => (Except.ok { ctxId := ctxId, releaseFunc := NoopReleaseFn }, st₁)
  else
    let key := NewWorkflowIdentifier domainID execution.workflowID execution.runID
    match cacheGetSt st key with
    | (some ctxId, st₁) => lockAndFinish o key ctxId scope forceClearContext callerScope st₁
    | (none, st₁) =>
      let st₂ := emit st₁ (Event.incCounter scope CacheMissCounter)
      match newContext domainID execution st₂ with
      | (fresh, st₃) =>
        match cachePutIfNotExist st₃.entries key fresh o.capacityFail with
        | Except.error e => (Except.error e, emit st₃ (Event.incCounter scope CacheFailures))
        | Except.ok (ctxId, es) =>
          lockAndFinish o key ctxId scope forceClearContext callerScope
            { st₃ with entries := es }

/-- Mirrors GetOrCreateCurrentWorkflowExecution: count the request, use
the empty run ID as current workflow run ID, and call the internal
acquisition with forceClearContext set and the scope as caller scope; the
CacheLatency timer stops on exit. -/
def GetOrCreateCurrentWorkflowExecution (c : Cache) (o : Oracle) (domainID : String)
    (workflowID : String) (st : CacheState) : Except Err AcquireResult × CacheState :=
  let scope := HistoryCacheGetOrCreateCurrentScope
  let st₁ := emit st (Event.incCounter scope CacheRequests)
  let execution : WorkflowExecution := { workflowID := workflowID, runID := "" }
  match getOrCreateWorkflowExecutionInternal c o domainID execution scope true scope st₁ with
  | (r, st₂) => (r, emit st₂ (Event.stopTimer scope CacheLatency))

/-- Mirrors GetOrCreateWorkflowExecution: count the request, validate
(counting a failure on rejection), then run the internal acquisition with
forceClearContext unset; the CacheLatency timer stops on exit. -/
def GetOrCreateWorkflowExecution (c : Cache) (o : Oracle) (domainID : String)
    (execution : WorkflowExecution) (callerScope : Nat) (st : CacheState) :
    Except Err AcquireResult × CacheState :=
  let scope := HistoryCacheGetOrCreateScope
  let st₁ := emit st (Event.incCounter scope CacheRequests)
  match validateWorkflowExecutionInfo o domainID execution st₁ with
  | (Except.error e, st₂) =>
    let st₃ := emit st₂ (Event.incCounter scope CacheFailures)
    (Except.error e, emit st₃ (Event.stopTimer scope CacheLatency))
  | (Except.ok execution', st₂) =>
    match getOrCreateWorkflowExecutionInternal c o domainID execution' scope false
        callerScope st₂ with
    | (r, st₃) => (r, emit st₃ (Event.stopTimer scope CacheLatency))

/-- Result of GetAndCreateWorkflowExecution: the cached Context if hit,
the second Context freshly loaded from the database, the release function
(no-op unless hit), and the hit flag. -/
structure GetAndCreateResult where
  fromCache : Option Nat
  fromDB : Nat
  releaseFunc : ReleaseFuncModel
  cacheHit : Bool
deriving DecidableEq, Repr

/-- Mirrors GetAndCreateWorkflowExecution: count the request, validate
(counting a failure on rejection), Get the key without insertion; on hit
lock the cached Context (on cancellation release the pin, count the
failures and return the error) and build a release function with
forceClearContext unset and an empty domain label; on miss count the miss
and keep NoopReleaseFn; in both non-error cases construct a second,
uncached Context from the database that is never put into the map; the
CacheLatency timer stops on exit. -/
def GetAndCreateWorkflowExecution (c : Cache) (o : Oracle) (domainID : String)
    (execution : WorkflowExecution) (st : CacheState) :
    Except Err GetAndCreateResult × CacheState :=
  let scope := HistoryCacheGetAndCreateScope
  let st₁ := emit st (Event.incCounter scope CacheRequests)
  match validateWorkflowExecutionInfo o domainID execution st₁ with
  | (Except.error e, st₂) =>
    let st₃ := emit st₂ (Event.incCounter scope CacheFailures)
    (Except.error e, emit st₃ (Event.stopTimer scope CacheLatency))
  | (Except.ok execution', st₂) =>
    let key := NewWorkflowIdentifier domainID execution'.workflowID execution'.runID
    match cacheGetSt st₂ key with
    | (some ctxId, st₃) =>
      match o.lockResult with
      | some e =>
        let st₄ := releaseKey st₃ key
        let st₅ := emit st₄ (Event.incCounter scope CacheFailures)
        let st₆ := emit st₅ (Event.incCounter scope AcquireLockFailedCounter)
        (Except.error e, emit st₆ (Event.stopTimer scope CacheLatency))
      | none =>
        let releaseFunc := makeReleaseFunc key ctxId false scope ""
        match newContext domainID execution' st₃ with
        | (dbCtxId, st₄) =>
          (Except.ok
             { fromCache := some ctxId, fromDB := dbCtxId,
               releaseFunc := releaseFunc, cacheHit := true },
           emit st₄ (Event.stopTimer scope CacheLatency))
    | (none, st₃) =>
      let st₄ := emit st₃ (Event.incCounter scope CacheMissCounter)
      match newContext domainID execution' st₄ with
      | (dbCtxId, st₅) =>
        (Except.ok
           { fromCache := none, fromDB := dbCtxId,
             releaseFunc := NoopReleaseFn, cacheHit := false },
         emit st₅ (Event.stopTimer scope CacheLatency))

/-- No two entries of the map share a key. -/
def KeysUnique (es : List Entry) : Prop :=
  es.Pairwise (fun a b => a.key ≠ b.key)

/-- Every Context identity resident in the map was allocated before the
fresh-identity counter. -/
def StateWF (st : CacheState) : Prop :=
  ∀ e ∈ st.entries, e.ctxId < st.nextCtxId

/-- Concrete facade value with the cache enabled. -/
def cache0 : Cache := { disabled := false }

/-- Concrete collaborator behaviour: the resolver answers "r9" at once,
the lock is acquired, the put does not hit capacity, the domain label
resolves, and uuid.Parse accepts exactly "r1" and "r9". -/
def oracleA : Oracle :=
  { getCurrentExecution := fun _ _ => Except.ok "r9",
    retryFuel := 2,
    lockResult := none,
    capacityFail := false,
    domainName := some "dom1",
    uuidParse := fun s => s == "r1" || s == "r9" }

/-- Collaborator behaviour where the caller's cancellation fires before
Context.Lock is acquired. -/
def oracleLockFail : Oracle :=
  { oracleA with lockResult := some Err.canceled }

/-- Collaborator behaviour where the current-run resolution fails with a
non-transient storage error. -/
def oracleResolveFail : Oracle :=
  { oracleA with getCurrentExecution := fun _ _ => Except.error (Err.storage 7 false) }

/-- Empty initial state. -/
def state0 : CacheState :=
  { entries := [], contexts := [], nextCtxId := 0, trace := [] }

/-- A resident unpinned entry for key ("d1", "w1", "r1") cached as
Context 0. -/
def entryR1 : Entry :=
  { key := { domainID := "d1", workflowID := "w1", runID := "r1" }, ctxId := 0, pinCount := 0 }

/-- State holding exactly entryR1, with Context 0 already constructed. -/
def stateR1 : CacheState :=
  { entries := [entryR1],
    contexts := [{ id := 0, domainID := "d1", execution := { workflowID := "w1", runID := "r1" } }],
    nextCtxId := 1,
    trace := [] }

/-- A fresh release handle as built by makeReleaseFunc. -/
def handle0 : ReleaseHandle :=
  { key := { domainID := "d1", workflowID := "w1", runID := "r1" }, ctxId := 0,
    forceClearContext := false, callerScope := 7, domainName := "dom1",
    status := cacheNotReleased }

theorem decPin_bumpPin (k : WorkflowIdentifier) (e : Entry) :
    decPin k (bumpPin k e) = e := by
  cases e with
  | mk ek ec ep =>
    by_cases h : ek = k
    · simp [bumpPin, decPin, h]
    · simp [bumpPin, decPin, h]

theorem cacheRelease_bumpMap (es : List Entry) (k : WorkflowIdentifier) :
    cacheRelease (es.map (bumpPin k)) k = es := by
  have hcomp : decPin k ∘ bumpPin k = id := funext (fun e => decPin_bumpPin k e)
  simp only [cacheRelease, List.map_map, hcomp, List.map_id]

/-- A released handle's invocation is inert: state, handle and a
propagating fault pass through unchanged. -/
theorem runReleaseFunc_released (h : ReleaseHandle) (err : Option Err) (fault : Option Nat)
    (st : CacheState) (hs : h.status = cacheReleased) :
    runReleaseFunc (ReleaseFuncModel.handle h) err fault st =
      (ReleaseFuncModel.handle h, st, fault) := by
  simp [runReleaseFunc, hs, cacheReleased, cacheNotReleased]

theorem runReleaseN_released (h : ReleaseHandle) (errs : List (Option Err)) (st : CacheState)
    (hs : h.status = cacheReleased) :
    runReleaseN (ReleaseFuncModel.handle h) errs st = (ReleaseFuncModel.handle h, st) := by
  induction errs generalizing st with
  | nil => rfl
  | cons e rest ih =>
    simp only [runReleaseN, runReleaseFunc_released h e none st hs]
    exact ih st

theorem runReleaseN_noop (errs : List (Option Err)) (st : CacheState) :
    runReleaseN ReleaseFuncModel.noop errs st = (ReleaseFuncModel.noop, st) := by
  induction errs generalizing st with
  | nil => rfl
  | cons e rest ih =>
    simp only [runReleaseN, runReleaseFunc]
    exact ih st

/-- First fault-free invocation of a fresh handle: the handle flips to
released and no fault propagates, whatever the error argument. -/
theorem runReleaseFunc_fresh_components (h : ReleaseHandle) (err : Option Err)
    (st : CacheState) (hs : h.status = cacheNotReleased) :
    (runReleaseFunc (ReleaseFuncModel.handle h) err none st).1 =
      ReleaseFuncModel.handle { h with status := cacheReleased } ∧
    (runReleaseFunc (ReleaseFuncModel.handle h) err none st).2.2 = none := by
  simp [runReleaseFunc, hs]

/-- Claim C4: if a fault (Go panic) propagates through a not-yet-released
handle, the deferred block calls Context.Clear, then Context.Unlock, then
(after the lock-hold timer record) Release on the key, in that order, and
re-raises the same fault value unchanged. -/
theorem claim4_theorem (h : ReleaseHandle) (err : Option Err) (f : Nat) (st : CacheState)
    (hs : h.status = cacheNotReleased) :
    runReleaseFunc (ReleaseFuncModel.handle h) err (some f) st =
      (ReleaseFuncModel.handle { h with status := cacheReleased },
       { st with entries := cacheRelease st.entries h.key,
                 trace := st.trace ++
                   [Event.clear h.ctxId, Event.unlock h.ctxId,
                    Event.recordTimer h.callerScope LockHoldLatency,
                    Event.releasePin h.key] },
       some f) := by
  simp [runReleaseFunc, hs, emit, releaseKey]

/-- Claim C4 witness: the fault path evaluated at a concrete handle,
fault value 42 and the empty state. -/
theorem claim4_witness :
    runReleaseFunc (ReleaseFuncModel.handle handle0) none (some 42) state0 =
      (ReleaseFuncModel.handle { handle0 with status := cacheReleased },
       { state0 with entries := cacheRelease state0.entries handle0.key,
                     trace := state0.trace ++
                       [Event.clear handle0.ctxId, Event.unlock handle0.ctxId,
                        Event.recordTimer handle0.callerScope LockHoldLatency,
                        Event.releasePin handle0.key] },
       some 42) :=
  claim4_theorem handle0 none 42 state0 rfl

/-- Claim C5: a release handle is single-shot and idempotent: a sequence
of two or more fault-free invocations has exactly the observable effect of
the first one (the no-op handle trivially so), and any invocation of an
already-released handle changes nothing and passes a propagating fault
through. -/
theorem claim5_theorem (h : ReleaseHandle) (st : CacheState) (e : Option Err)
    (errs : List (Option Err)) (hs : h.status = cacheNotReleased) :
    runReleaseN (ReleaseFuncModel.handle h) (e :: errs) st =
      runReleaseN (ReleaseFuncModel.handle h) [e] st ∧
    runReleaseN ReleaseFuncModel.noop (e :: errs) st =
      runReleaseN ReleaseFuncModel.noop [e] st ∧
    (∀ (e' : Option Err) (f : Option Nat) (st' : CacheState),
       runReleaseFunc (ReleaseFuncModel.handle { h with status := cacheReleased }) e' f st' =
         (ReleaseFuncModel.handle { h with status := cacheReleased }, st', f)) := by
  refine ⟨?_, ?_, ?_⟩
  · rcases hrun : runReleaseFunc (ReleaseFuncModel.handle h) e none st with ⟨rf', st', fl⟩
    have hcomp := runReleaseFunc_fresh_components h e st hs
    rw [hrun] at hcomp
    have h1 : rf' = ReleaseFuncModel.handle { h with status := cacheReleased } := hcomp.1
    simp only [runReleaseN, hrun]
    rw [h1]
    exact runReleaseN_released _ _ _ rfl
  · rw [runReleaseN_noop, runReleaseN_noop]
  · intro e' f st'
    exact runReleaseFunc_released _ e' f st' rfl

/-- Claim C5 witness: double invocation of a concrete fresh handle equals
single invocation, on the empty state. -/
theorem claim5_witness :
    runReleaseN (ReleaseFuncModel.handle handle0) [some Err.canceled, none] state0 =
      runReleaseN (ReleaseFuncModel.handle handle0) [some Err.canceled] state0 :=
  (claim5_theorem handle0 state0 (some Err.canceled) [none] rfl).1

/-- First fault-free invocation of a fresh handle, in full: Clear happens
exactly when the caller passed an error or the handle is force-clear,
then the canary sleeps, Unlock, the lock-hold timer record, and the pin
release, in that order. -/
theorem runReleaseFunc_fresh_normal (h : ReleaseHandle) (err : Option Err) (st : CacheState)
    (hs : h.status = cacheNotReleased) :
    runReleaseFunc (ReleaseFuncModel.handle h) err none st =
      (ReleaseFuncModel.handle { h with status := cacheReleased },
       { st with entries := cacheRelease st.entries h.key,
                 trace := st.trace ++
                   ((if err.isSome || h.forceClearContext then [Event.clear h.ctxId] else []) ++
                    sleepEvents h.domainName h.callerScope ++
                    [Event.unlock h.ctxId, Event.recordTimer h.callerScope LockHoldLatency,
                     Event.releasePin h.key]) },
       none) := by
  by_cases hc : err.isSome || h.forceClearContext
  · simp [runReleaseFunc, hs, hc, emit, releaseKey, List.append_assoc]
  · simp [runReleaseFunc, hs, hc, emit, releaseKey, List.append_assoc]

theorem bumpPin_key (k : WorkflowIdentifier) (e : Entry) : (bumpPin k e).key = e.key := by
  unfold bumpPin
  split
  · rfl
  · rfl

theorem decPin_key (k : WorkflowIdentifier) (e : Entry) : (decPin k e).key = e.key := by
  unfold decPin
  split
  · rfl
  · rfl

theorem bumpPin_ctxId (k : WorkflowIdentifier) (e : Entry) : (bumpPin k e).ctxId = e.ctxId := by
  unfold bumpPin
  split
  · rfl
  · rfl

theorem decPin_ctxId (k : WorkflowIdentifier) (e : Entry) : (decPin k e).ctxId = e.ctxId := by
  unfold decPin
  split
  · rfl
  · rfl

/-- A successful internal acquisition (cache enabled, lock acquired, no
capacity failure) returns a release handle capturing the formed key, the
returned Context, the forceClearContext flag and the caller scope, with
the key resident in the map afterwards. -/
theorem internal_ok_handle (c : Cache) (o : Oracle) (d : String) (ex : WorkflowExecution)
    (scope : Nat) (fc : Bool) (cs : Nat) (st : CacheState)
    (hd : c.disabled = false) (hl : o.lockResult = none) (hcf : o.capacityFail = false) :
    ∃ res, (getOrCreateWorkflowExecutionInternal c o d ex scope fc cs st).1 = Except.ok res ∧
      res.releaseFunc = ReleaseFuncModel.handle
        { key := NewWorkflowIdentifier d ex.workflowID ex.runID, ctxId := res.ctxId,
          forceClearContext := fc, callerScope := cs,
          domainName := o.domainName.getD "", status := cacheNotReleased } ∧
      NewWorkflowIdentifier d ex.workflowID ex.runID ∈
        ((getOrCreateWorkflowExecutionInternal c o d ex scope fc cs st).2.entries.map Entry.key) := by
  cases hfind : st.entries.find?
      (fun e => decide (e.key = NewWorkflowIdentifier d ex.workflowID ex.runID)) with
  | some e₀ =>
    have hp := List.find?_some hfind
    simp only [decide_eq_true_eq] at hp
    have hkey : e₀.key = NewWorkflowIdentifier d ex.workflowID ex.runID := hp
    have hmem : e₀ ∈ st.entries := List.mem_of_find?_eq_some hfind
    refine ⟨{ ctxId := e₀.ctxId,
              releaseFunc := makeReleaseFunc (NewWorkflowIdentifier d ex.workflowID ex.runID)
                e₀.ctxId fc cs (o.domainName.getD "") }, ?_, ?_, ?_⟩
    · simp [getOrCreateWorkflowExecutionInternal, hd, cacheGetSt, cacheGet, hfind,
        lockAndFinish, hl]
    · simp [makeReleaseFunc]
    · simp only [getOrCreateWorkflowExecutionInternal, hd, cacheGetSt, cacheGet, hfind,
        lockAndFinish, hl, Bool.false_eq_true, if_false, emit]
      refine List.mem_map.mpr ⟨bumpPin (NewWorkflowIdentifier d ex.workflowID ex.runID) e₀, ?_, ?_⟩
      · exact List.mem_map_of_mem _ hmem
      · rw [bumpPin_key, hkey]
  | none =>
    refine ⟨{ ctxId := st.nextCtxId,
              releaseFunc := makeReleaseFunc (NewWorkflowIdentifier d ex.workflowID ex.runID)
                st.nextCtxId fc cs (o.domainName.getD "") }, ?_, ?_, ?_⟩
    · simp [getOrCreateWorkflowExecutionInternal, hd, cacheGetSt, cacheGet, hfind, emit,
        newContext, cachePutIfNotExist, hcf, lockAndFinish, hl]
    · simp [makeReleaseFunc]
    · simp [getOrCreateWorkflowExecutionInternal, hd, cacheGetSt, cacheGet, hfind, emit,
        newContext, cachePutIfNotExist, hcf, lockAndFinish, hl]

/-- Claim C2: the first fault-free invocation of a release handle calls
Context.Clear exactly when the caller passed an error or the handle is in
force-clear mode, then unlocks, then releases the pin via Release(key);
and every handle produced by a successful GetOrCreateCurrentWorkflowExecution
is in force-clear mode, so its release clears unconditionally before the
pin release. -/
theorem claim2_theorem (h : ReleaseHandle) (err : Option Err) (st : CacheState)
    (c : Cache) (o : Oracle) (d w : String) (st₀ : CacheState)
    (hs : h.status = cacheNotReleased) (hd : c.disabled = false)
    (hl : o.lockResult = none) (hcf : o.capacityFail = false) :
    runReleaseFunc (ReleaseFuncModel.handle h) err none st =
      (ReleaseFuncModel.handle { h with status := cacheReleased },
       { st with entries := cacheRelease st.entries h.key,
                 trace := st.trace ++
                   ((if err.isSome || h.forceClearContext then [Event.clear h.ctxId] else []) ++
                    sleepEvents h.domainName h.callerScope ++
                    [Event.unlock h.ctxId, Event.recordTimer h.callerScope LockHoldLatency,
                     Event.releasePin h.key]) },
       none) ∧
    ∃ res, (GetOrCreateCurrentWorkflowExecution c o d w st₀).1 = Except.ok res ∧
      ∃ hh, res.releaseFunc = ReleaseFuncModel.handle hh ∧
        hh.forceClearContext = true ∧
        hh.key = NewWorkflowIdentifier d w "" ∧
        hh.status = cacheNotReleased := by
  constructor
  · exact runReleaseFunc_fresh_normal h err st hs
  · obtain ⟨res, hok, hrel, _⟩ := internal_ok_handle c o d { workflowID := w, runID := "" }
      HistoryCacheGetOrCreateCurrentScope true HistoryCacheGetOrCreateCurrentScope
      (emit st₀ (Event.incCounter HistoryCacheGetOrCreateCurrentScope CacheRequests))
      hd hl hcf
    refine ⟨res, ?_, ?_⟩
    · rcases hint : getOrCreateWorkflowExecutionInternal c o d { workflowID := w, runID := "" }
          HistoryCacheGetOrCreateCurrentScope true HistoryCacheGetOrCreateCurrentScope
          (emit st₀ (Event.incCounter HistoryCacheGetOrCreateCurrentScope CacheRequests)) with
        ⟨r, st₂⟩
      rw [hint] at hok
      simp only [GetOrCreateCurrentWorkflowExecution, hint]
      exact hok
    · exact ⟨_, hrel, rfl, rfl, rfl⟩

/-- Claim C2 witness: a concrete fresh handle released without error does
not clear (not force-clear mode), and a concrete successful
GetOrCreateCurrentWorkflowExecution yields a force-clear handle. -/
theorem claim2_witness :
    runReleaseFunc (ReleaseFuncModel.handle handle0) none none state0 =
      (ReleaseFuncModel.handle { handle0 with status := cacheReleased },
       { state0 with entries := cacheRelease state0.entries handle0.key,
                     trace := state0.trace ++
                       ((if (none : Option Err).isSome || handle0.forceClearContext then
                           [Event.clear handle0.ctxId] else []) ++
                        sleepEvents handle0.domainName handle0.callerScope ++
                        [Event.unlock handle0.ctxId,
                         Event.recordTimer handle0.callerScope LockHoldLatency,
                         Event.releasePin handle0.key]) },
       none) ∧
    ∃ res, (GetOrCreateCurrentWorkflowExecution cache0 oracleA "d1" "w1" state0).1 =
        Except.ok res ∧
      ∃ hh, res.releaseFunc = ReleaseFuncModel.handle hh ∧
        hh.forceClearContext = true ∧
        hh.key = NewWorkflowIdentifier "d1" "w1" "" ∧
        hh.status = cacheNotReleased :=
  claim2_theorem handle0 none state0 cache0 oracleA "d1" "w1" state0 rfl rfl rfl rfl

/-- Any key resident after an internal acquisition was either already
resident or is the key formed from the execution the internal call
received. -/
theorem internal_keys (c : Cache) (o : Oracle) (d : String) (ex : WorkflowExecution)
    (scope : Nat) (fc : Bool) (cs : Nat) (st : CacheState) :
    ∀ e' ∈ (getOrCreateWorkflowExecutionInternal c o d ex scope fc cs st).2.entries,
      e'.key ∈ st.entries.map Entry.key ∨
      e'.key = NewWorkflowIdentifier d ex.workflowID ex.runID := by
  cases hd : c.disabled with
  | true =>
    intro e' he'
    simp only [getOrCreateWorkflowExecutionInternal, hd, if_true, newContext] at he'
    exact Or.inl (List.mem_map_of_mem _ he')
  | false =>
    cases hfind : st.entries.find?
        (fun e => decide (e.key = NewWorkflowIdentifier d ex.workflowID ex.runID)) with
    | some e₀ =>
      cases hl : o.lockResult with
      | some e =>
        intro e' he'
        simp only [getOrCreateWorkflowExecutionInternal, hd, Bool.false_eq_true, if_false,
          cacheGetSt, cacheGet, hfind, lockAndFinish, hl, releaseKey, emit,
          cacheRelease_bumpMap] at he'
        exact Or.inl (List.mem_map_of_mem _ he')
      | none =>
        intro e' he'
        simp only [getOrCreateWorkflowExecutionInternal, hd, Bool.false_eq_true, if_false,
          cacheGetSt, cacheGet, hfind, lockAndFinish, hl, emit] at he'
        obtain ⟨a, ha, hae⟩ := List.mem_map.mp he'
        left
        rw [← hae, bumpPin_key]
        exact List.mem_map_of_mem _ ha
    | none =>
      cases hcf : o.capacityFail with
      | true =>
        intro e' he'
        simp only [getOrCreateWorkflowExecutionInternal, hd, Bool.false_eq_true, if_false,
          cacheGetSt, cacheGet, hfind, emit, newContext, cachePutIfNotExist, hcf,
          if_true] at he'
        exact Or.inl (List.mem_map_of_mem _ he')
      | false =>
        cases hl : o.lockResult with
        | some e =>
          intro e' he'
          simp only [getOrCreateWorkflowExecutionInternal, hd, Bool.false_eq_true, if_false,
            cacheGetSt, cacheGet, hfind, emit, newContext, cachePutIfNotExist, hcf,
            lockAndFinish, hl, releaseKey, cacheRelease, List.map_append] at he'
          rcases List.mem_append.mp he' with hin | hone
          · obtain ⟨a, ha, hae⟩ := List.mem_map.mp hin
            left
            rw [← hae, decPin_key]
            exact List.mem_map_of_mem _ ha
          · right
            simp only [List.map_cons, List.map_nil, List.mem_singleton] at hone
            rw [hone, decPin_key]
        | none =>
          intro e' he'
          simp only [getOrCreateWorkflowExecutionInternal, hd, Bool.false_eq_true, if_false,
            cacheGetSt, cacheGet, hfind, emit, newContext, cachePutIfNotExist, hcf,
            lockAndFinish, hl] at he'
          rcases List.mem_append.mp he' with hin | hone
          · exact Or.inl (List.mem_map_of_mem _ hin)
          · right
            simp only [List.mem_singleton] at hone
            rw [hone]

/-- Claim C1 counterexample: the claim asserts every key stored in the map
has a non-empty runID; yet a plain GetOrCreateCurrentWorkflowExecution on
the empty cache stores its entry under the sentinel empty runID (the
source forms the key directly from the empty run id without resolving
it). -/
theorem claim1_counterexample :
    ¬ (∀ e ∈ (GetOrCreateCurrentWorkflowExecution cache0 oracleA "d1" "w1" state0).2.entries,
         e.key.runID ≠ "") := by
  decide

/-- Claim C1 (amended): on the paths that validate their input
(GetOrCreateWorkflowExecution, GetAndCreateWorkflowExecution) an empty
runID is resolved to the resolver's run id before the map lookup, so any
key those paths store carries the resolved run id; but
GetOrCreateCurrentWorkflowExecution performs no resolution and stores its
entry under the sentinel empty runID itself. -/
theorem claim1_theorem (c : Cache) (o : Oracle) (d : String) (ex : WorkflowExecution)
    (cs : Nat) (st : CacheState) (rid' : String) (w : String)
    (hd : c.disabled = false) (hl : o.lockResult = none) (hcf : o.capacityFail = false)
    (hw : ¬ ex.workflowID = "") (hr : ex.runID = "")
    (hretry : throttleRetryDo isTransientError
        (o.getCurrentExecution { domainID := d, workflowID := ex.workflowID }) 0 o.retryFuel =
      Except.ok rid') :
    (∀ e' ∈ (GetOrCreateWorkflowExecution c o d ex cs st).2.entries,
       e'.key ∈ st.entries.map Entry.key ∨
       e'.key = NewWorkflowIdentifier d ex.workflowID rid') ∧
    (∃ e' ∈ (GetOrCreateCurrentWorkflowExecution c o d w st).2.entries,
       e'.key = NewWorkflowIdentifier d w "") := by
  constructor
  · intro e' he'
    simp only [GetOrCreateWorkflowExecution, validateWorkflowExecutionInfo, hw,
      Bool.false_eq_true, if_false, hr, if_true, getCurrentExecutionWithRetry, hretry,
      emit] at he'
    rcases hint : getOrCreateWorkflowExecutionInternal c o d { ex with runID := rid' }
        HistoryCacheGetOrCreateScope false cs
        { st with trace := st.trace ++
            [Event.incCounter HistoryCacheGetOrCreateScope CacheRequests] ++
            [Event.incCounter HistoryCacheGetCurrentExecutionScope CacheRequests] ++
            [Event.stopTimer HistoryCacheGetCurrentExecutionScope CacheLatency] } with
      ⟨r, st₃⟩
    rw [hint] at he'
    have hkeys := internal_keys c o d { ex with runID := rid' }
      HistoryCacheGetOrCreateScope false cs
      { st with trace := st.trace ++
          [Event.incCounter HistoryCacheGetOrCreateScope CacheRequests] ++
          [Event.incCounter HistoryCacheGetCurrentExecutionScope CacheRequests] ++
          [Event.stopTimer HistoryCacheGetCurrentExecutionScope CacheLatency] }
    rw [hint] at hkeys
    simp only at he'
    exact hkeys e' he'
  · obtain ⟨res, hok, hrel, hmem⟩ := internal_ok_handle c o d { workflowID := w, runID := "" }
      HistoryCacheGetOrCreateCurrentScope true HistoryCacheGetOrCreateCurrentScope
      (emit st (Event.incCounter HistoryCacheGetOrCreateCurrentScope CacheRequests))
      hd hl hcf
    rcases hint : getOrCreateWorkflowExecutionInternal c o d { workflowID := w, runID := "" }
        HistoryCacheGetOrCreateCurrentScope true HistoryCacheGetOrCreateCurrentScope
        (emit st (Event.incCounter HistoryCacheGetOrCreateCurrentScope CacheRequests)) with
      ⟨r, st₂⟩
    rw [hint] at hmem
    obtain ⟨a, ha, hak⟩ := List.mem_map.mp hmem
    refine ⟨a, ?_, hak⟩
    simp only [GetOrCreateCurrentWorkflowExecution]
    rw [hint]
    exact ha

/-- Claim C1 witness: the amended statement evaluated at concrete inputs,
with the resolver answering "r9". -/
theorem claim1_witness :
    (∀ e' ∈ (GetOrCreateWorkflowExecution cache0 oracleA "d1"
               { workflowID := "w1", runID := "" } 7 state0).2.entries,
       e'.key ∈ state0.entries.map Entry.key ∨
       e'.key = NewWorkflowIdentifier "d1" "w1" "r9") ∧
    (∃ e' ∈ (GetOrCreateCurrentWorkflowExecution cache0 oracleA "d1" "w1" state0).2.entries,
       e'.key = NewWorkflowIdentifier "d1" "w1" "") :=
  claim1_theorem cache0 oracleA "d1" { workflowID := "w1", runID := "" } 7 state0 "r9" "w1"
    rfl rfl rfl (by decide) rfl rfl

theorem keysUnique_map (es : List Entry) (f : Entry → Entry)
    (hf : ∀ e, (f e).key = e.key) (hu : KeysUnique es) : KeysUnique (es.map f) :=
  List.Pairwise.map f (fun a b hab => by rw [hf a, hf b]; exact hab) hu

theorem keysUnique_append_one (es : List Entry) (k : WorkflowIdentifier) (v p : Nat)
    (hnone : es.find? (fun e => decide (e.key = k)) = none) (hu : KeysUnique es) :
    KeysUnique (es ++ [{ key := k, ctxId := v, pinCount := p }]) := by
  rw [KeysUnique, List.pairwise_append]
  refine ⟨hu, by simp [List.Pairwise], ?_⟩
  intro a ha b hb
  simp only [List.mem_singleton] at hb
  subst hb
  have hnp := List.find?_eq_none.mp hnone a ha
  simp only [decide_eq_true_eq] at hnp
  simpa using hnp

/-- Claim C3: the internal acquisition preserves at-most-one-entry-per-key
on every path, and the map's put-if-absent hands back the pre-existing
element (pinned) when a racer already inserted for the key, not the
element the caller constructed. -/
theorem claim3_theorem (c : Cache) (o : Oracle) (d : String) (ex : WorkflowExecution)
    (scope : Nat) (fc : Bool) (cs : Nat) (st : CacheState) (es : List Entry)
    (k : WorkflowIdentifier) (v : Nat) (cf : Bool) (e₀ : Entry)
    (hu : KeysUnique st.entries)
    (hfind : es.find? (fun e => decide (e.key = k)) = some e₀) :
    KeysUnique (getOrCreateWorkflowExecutionInternal c o d ex scope fc cs st).2.entries ∧
    cachePutIfNotExist es k v cf = Except.ok (e₀.ctxId, es.map (bumpPin k)) := by
  constructor
  · cases hd : c.disabled with
    | true =>
      simp only [getOrCreateWorkflowExecutionInternal, hd, if_true, newContext]
      exact hu
    | false =>
      cases hfind2 : st.entries.find?
          (fun e => decide (e.key = NewWorkflowIdentifier d ex.workflowID ex.runID)) with
      | some e₁ =>
        cases hl : o.lockResult with
        | some e =>
          simp only [getOrCreateWorkflowExecutionInternal, hd, Bool.false_eq_true, if_false,
            cacheGetSt, cacheGet, hfind2, lockAndFinish, hl, releaseKey, emit,
            cacheRelease_bumpMap]
          exact hu
        | none =>
          simp only [getOrCreateWorkflowExecutionInternal, hd, Bool.false_eq_true, if_false,
            cacheGetSt, cacheGet, hfind2, lockAndFinish, hl, emit]
          exact keysUnique_map _ _ (bumpPin_key _) hu
      | none =>
        cases hcf : o.capacityFail with
        | true =>
          simp only [getOrCreateWorkflowExecutionInternal, hd, Bool.false_eq_true, if_false,
            cacheGetSt, cacheGet, hfind2, emit, newContext, cachePutIfNotExist, hcf,
            if_true]
          exact hu
        | false =>
          cases hl : o.lockResult with
          | some e =>
            simp only [getOrCreateWorkflowExecutionInternal, hd, Bool.false_eq_true, if_false,
              cacheGetSt, cacheGet, hfind2, emit, newContext, cachePutIfNotExist, hcf,
              lockAndFinish, hl, releaseKey, cacheRelease]
            exact keysUnique_map _ _ (decPin_key _)
              (keysUnique_append_one st.entries _ st.nextCtxId 1 hfind2 hu)
          | none =>
            simp only [getOrCreateWorkflowExecutionInternal, hd, Bool.false_eq_true, if_false,
              cacheGetSt, cacheGet, hfind2, emit, newContext, cachePutIfNotExist, hcf,
              lockAndFinish, hl]
            exact keysUnique_append_one st.entries _ st.nextCtxId 1 hfind2 hu
  · simp [cachePutIfNotExist, hfind]

/-- Claim C3 witness: a state holding one entry keeps key uniqueness
through a concrete acquisition, and put-if-absent on an occupied key
returns the resident element. -/
theorem claim3_witness :
    KeysUnique (getOrCreateWorkflowExecutionInternal cache0 oracleA "d1"
      { workflowID := "w1", runID := "r1" } 7 false 7 stateR1).2.entries ∧
    cachePutIfNotExist [entryR1] entryR1.key 5 false =
      Except.ok (entryR1.ctxId, [entryR1].map (bumpPin entryR1.key)) :=
  claim3_theorem cache0 oracleA "d1" { workflowID := "w1", runID := "r1" } 7 false 7 stateR1
    [entryR1] entryR1.key 5 false entryR1 (by simp [KeysUnique, stateR1]) (by decide)

theorem pinOf_cons_pos (a : Entry) (es : List Entry) (k' : WorkflowIdentifier)
    (h : a.key = k') : pinOf (a :: es) k' = a.pinCount := by
  simp [pinOf, List.find?, h]

theorem pinOf_cons_neg (a : Entry) (es : List Entry) (k' : WorkflowIdentifier)
    (h : ¬ a.key = k') : pinOf (a :: es) k' = pinOf es k' := by
  simp [pinOf, List.find?, h]

theorem pinOf_release_append (es : List Entry) (k : WorkflowIdentifier) (v : Nat)
    (hnone : es.find? (fun e => decide (e.key = k)) = none) (k' : WorkflowIdentifier) :
    pinOf (cacheRelease (es ++ [{ key := k, ctxId := v, pinCount := 1 }]) k) k' =
      pinOf es k' := by
  induction es with
  | nil =>
    by_cases h : k = k'
    · simp [cacheRelease, decPin, pinOf, List.find?, h]
    · simp [cacheRelease, decPin, pinOf, List.find?, h]
  | cons a l ih =>
    have ha : ¬ (a.key = k) := by
      have := List.find?_eq_none.mp hnone a (List.mem_cons_self a l)
      simpa using this
    have hl : l.find? (fun e => decide (e.key = k)) = none :=
      List.find?_eq_none.mpr
        (fun x hx => List.find?_eq_none.mp hnone x (List.mem_cons_of_mem a hx))
    have hda : decPin k a = a := by simp [decPin, ha]
    have hstep : cacheRelease ((a :: l) ++ [{ key := k, ctxId := v, pinCount := 1 }]) k =
        a :: cacheRelease (l ++ [{ key := k, ctxId := v, pinCount := 1 }]) k := by
      simp [cacheRelease, hda]
    rw [hstep]
    by_cases hak : a.key = k'
    · rw [pinOf_cons_pos a _ k' hak, pinOf_cons_pos a l k' hak]
    · rw [pinOf_cons_neg a _ k' hak, pinOf_cons_neg a l k' hak]
      exact ih hl

/-- The cache-hit, lock-failure path of GetAndCreateWorkflowExecution in
full: the pin taken by the lookup is released, the failures are counted,
the error is returned, and nothing else changes — in particular no
Context is constructed. -/
theorem getAndCreate_hit_lockFail (c : Cache) (o : Oracle) (d : String)
    (ex : WorkflowExecution) (st : CacheState) (e : Err) (e₀ : Entry)
    (hw : ¬ ex.workflowID = "") (hr : ¬ ex.runID = "") (huu : o.uuidParse ex.runID = true)
    (hfind : st.entries.find?
        (fun en => decide (en.key = NewWorkflowIdentifier d ex.workflowID ex.runID)) =
      some e₀)
    (hl : o.lockResult = some e) :
    GetAndCreateWorkflowExecution c o d ex st =
      (Except.error e,
       { st with trace := st.trace ++
           [Event.incCounter HistoryCacheGetAndCreateScope CacheRequests,
            Event.releasePin (NewWorkflowIdentifier d ex.workflowID ex.runID),
            Event.incCounter HistoryCacheGetAndCreateScope CacheFailures,
            Event.incCounter HistoryCacheGetAndCreateScope AcquireLockFailedCounter,
            Event.stopTimer HistoryCacheGetAndCreateScope CacheLatency] }) := by
  simp [GetAndCreateWorkflowExecution, validateWorkflowExecutionInfo, hw, hr, huu, emit,
    cacheGetSt, cacheGet, hfind, hl, releaseKey, cacheRelease_bumpMap, List.append_assoc]

/-- Claim C6: when cancellation defeats the lock acquisition, both the
internal acquisition and the cache-hit branch of
GetAndCreateWorkflowExecution release the pin taken during lookup or
insert, return the cancellation error and no Context or release handle,
and leave every key's pin count as it was before the call. -/
theorem claim6_theorem (c : Cache) (o : Oracle) (d : String) (ex : WorkflowExecution)
    (scope : Nat) (fc : Bool) (cs : Nat) (st stG : CacheState) (e : Err) (e₀ : Entry)
    (hd : c.disabled = false) (hl : o.lockResult = some e) (hcf : o.capacityFail = false)
    (hw : ¬ ex.workflowID = "") (hr : ¬ ex.runID = "") (huu : o.uuidParse ex.runID = true)
    (hfindG : stG.entries.find?
        (fun en => decide (en.key = NewWorkflowIdentifier d ex.workflowID ex.runID)) =
      some e₀) :
    ((getOrCreateWorkflowExecutionInternal c o d ex scope fc cs st).1 = Except.error e ∧
     ∀ k, pinOf (getOrCreateWorkflowExecutionInternal c o d ex scope fc cs st).2.entries k =
       pinOf st.entries k) ∧
    ((GetAndCreateWorkflowExecution c o d ex stG).1 = Except.error e ∧
     ∀ k, pinOf (GetAndCreateWorkflowExecution c o d ex stG).2.entries k =
       pinOf stG.entries k) := by
  constructor
  · cases hfind2 : st.entries.find?
        (fun en => decide (en.key = NewWorkflowIdentifier d ex.workflowID ex.runID)) with
    | some e₁ =>
      constructor
      · simp [getOrCreateWorkflowExecutionInternal, hd, cacheGetSt, cacheGet, hfind2,
          lockAndFinish, hl]
      · intro k
        simp only [getOrCreateWorkflowExecutionInternal, hd, Bool.false_eq_true, if_false,
          cacheGetSt, cacheGet, hfind2, lockAndFinish, hl, releaseKey, emit,
          cacheRelease_bumpMap]
    | none =>
      constructor
      · simp [getOrCreateWorkflowExecutionInternal, hd, cacheGetSt, cacheGet, hfind2, emit,
          newContext, cachePutIfNotExist, hcf, lockAndFinish, hl]
      · intro k
        simp only [getOrCreateWorkflowExecutionInternal, hd, Bool.false_eq_true, if_false,
          cacheGetSt, cacheGet, hfind2, emit, newContext, cachePutIfNotExist, hcf,
          lockAndFinish, hl, releaseKey]
        exact pinOf_release_append st.entries _ st.nextCtxId hfind2 k
  · have heq := getAndCreate_hit_lockFail c o d ex stG e e₀ hw hr huu hfindG hl
    rw [heq]
    exact ⟨rfl, fun k => rfl⟩

/-- Claim C6 witness: concrete lock failure on a hit (for the facade
diagnostic path) and on a miss (for the internal path), pin counts
restored. -/
theorem claim6_witness :
    ((getOrCreateWorkflowExecutionInternal cache0 oracleLockFail "d1"
        { workflowID := "w1", runID := "r1" } 7 false 7 state0).1 =
       Except.error Err.canceled ∧
     ∀ k, pinOf (getOrCreateWorkflowExecutionInternal cache0 oracleLockFail "d1"
        { workflowID := "w1", runID := "r1" } 7 false 7 state0).2.entries k =
       pinOf state0.entries k) ∧
    ((GetAndCreateWorkflowExecution cache0 oracleLockFail "d1"
        { workflowID := "w1", runID := "r1" } stateR1).1 = Except.error Err.canceled ∧
     ∀ k, pinOf (GetAndCreateWorkflowExecution cache0 oracleLockFail "d1"
        { workflowID := "w1", runID := "r1" } stateR1).2.entries k =
       pinOf stateR1.entries k) :=
  claim6_theorem cache0 oracleLockFail "d1" { workflowID := "w1", runID := "r1" } 7 false 7
    state0 stateR1 Err.canceled entryR1 rfl rfl rfl (by decide) (by decide) rfl (by decide)

/-- Claim C10: on a cache hit whose lock acquisition fails,
GetAndCreateWorkflowExecution releases the pin taken by the lookup and
returns only the error (in the source: nil cached Context, nil fresh
Context, nil release function, hit false); no Context is constructed and
the map is left with its prior pin counts. -/
theorem claim10_theorem (c : Cache) (o : Oracle) (d : String) (ex : WorkflowExecution)
    (st : CacheState) (e : Err) (e₀ : Entry)
    (hw : ¬ ex.workflowID = "") (hr : ¬ ex.runID = "") (huu : o.uuidParse ex.runID = true)
    (hfind : st.entries.find?
        (fun en => decide (en.key = NewWorkflowIdentifier d ex.workflowID ex.runID)) =
      some e₀)
    (hl : o.lockResult = some e) :
    GetAndCreateWorkflowExecution c o d ex st =
      (Except.error e,
       { st with trace := st.trace ++
           [Event.incCounter HistoryCacheGetAndCreateScope CacheRequests,
            Event.releasePin (NewWorkflowIdentifier d ex.workflowID ex.runID),
            Event.incCounter HistoryCacheGetAndCreateScope CacheFailures,
            Event.incCounter HistoryCacheGetAndCreateScope AcquireLockFailedCounter,
            Event.stopTimer HistoryCacheGetAndCreateScope CacheLatency] }) :=
  getAndCreate_hit_lockFail c o d ex st e e₀ hw hr huu hfind hl

/-- Claim C10 witness: the hit-then-lock-failure path evaluated at a
concrete state holding one entry. -/
theorem claim10_witness :
    GetAndCreateWorkflowExecution cache0 oracleLockFail "d1"
        { workflowID := "w1", runID := "r1" } stateR1 =
      (Except.error Err.canceled,
       { stateR1 with trace := stateR1.trace ++
           [Event.incCounter HistoryCacheGetAndCreateScope CacheRequests,
            Event.releasePin (NewWorkflowIdentifier "d1" "w1" "r1"),
            Event.incCounter HistoryCacheGetAndCreateScope CacheFailures,
            Event.incCounter HistoryCacheGetAndCreateScope AcquireLockFailedCounter,
            Event.stopTimer HistoryCacheGetAndCreateScope CacheLatency] }) :=
  claim10_theorem cache0 oracleLockFail "d1" { workflowID := "w1", runID := "r1" } stateR1
    Err.canceled entryR1 (by decide) (by decide) rfl (by decide) rfl

/-- Claim C7: an empty workflowID or a non-empty runID rejected by
uuid.Parse fails both GetOrCreateWorkflowExecution and
GetAndCreateWorkflowExecution with the corresponding BadRequest error,
and in all four cases the map, the Context registry and the identity
counter are untouched — only the request, failure and latency metrics are
emitted — and no Context or release handle is returned. -/
theorem claim7_theorem (c : Cache) (o : Oracle) (d wid rid : String) (cs : Nat)
    (st : CacheState) :
    (wid = "" →
       GetOrCreateWorkflowExecution c o d { workflowID := wid, runID := rid } cs st =
         (Except.error (Err.badRequest "Can't load workflow execution.  WorkflowId not set."),
          { st with trace := st.trace ++
              [Event.incCounter HistoryCacheGetOrCreateScope CacheRequests,
               Event.incCounter HistoryCacheGetOrCreateScope CacheFailures,
               Event.stopTimer HistoryCacheGetOrCreateScope CacheLatency] })) ∧
    (¬ wid = "" → ¬ rid = "" → o.uuidParse rid = false →
       GetOrCreateWorkflowExecution c o d { workflowID := wid, runID := rid } cs st =
         (Except.error (Err.badRequest "RunID is not valid UUID."),
          { st with trace := st.trace ++
              [Event.incCounter HistoryCacheGetOrCreateScope CacheRequests,
               Event.incCounter HistoryCacheGetOrCreateScope CacheFailures,
               Event.stopTimer HistoryCacheGetOrCreateScope CacheLatency] })) ∧
    (wid = "" →
       GetAndCreateWorkflowExecution c o d { workflowID := wid, runID := rid } st =
         (Except.error (Err.badRequest "Can't load workflow execution.  WorkflowId not set."),
          { st with trace := st.trace ++
              [Event.incCounter HistoryCacheGetAndCreateScope CacheRequests,
               Event.incCounter HistoryCacheGetAndCreateScope CacheFailures,
               Event.stopTimer HistoryCacheGetAndCreateScope CacheLatency] })) ∧
    (¬ wid = "" → ¬ rid = "" → o.uuidParse rid = false →
       GetAndCreateWorkflowExecution c o d { workflowID := wid, runID := rid } st =
         (Except.error (Err.badRequest "RunID is not valid UUID."),
          { st with trace := st.trace ++
              [Event.incCounter HistoryCacheGetAndCreateScope CacheRequests,
               Event.incCounter HistoryCacheGetAndCreateScope CacheFailures,
               Event.stopTimer HistoryCacheGetAndCreateScope CacheLatency] })) := by
  refine ⟨?_, ?_, ?_, ?_⟩
  · intro h1
    simp [GetOrCreateWorkflowExecution, validateWorkflowExecutionInfo, h1, emit,
      List.append_assoc]
  · intro h1 h2 h3
    simp [GetOrCreateWorkflowExecution, validateWorkflowExecutionInfo, h1, h2, h3, emit,
      List.append_assoc]
  · intro h1
    simp [GetAndCreateWorkflowExecution, validateWorkflowExecutionInfo, h1, emit,
      List.append_assoc]
  · intro h1 h2 h3
    simp [GetAndCreateWorkflowExecution, validateWorkflowExecutionInfo, h1, h2, h3, emit,
      List.append_assoc]

/-- Claim C7 witness: the invalid-run-id rejection of
GetOrCreateWorkflowExecution evaluated at the literal input
("d1", "w1", "not-a-uuid") on the empty state. -/
theorem claim7_witness :
    GetOrCreateWorkflowExecution cache0 oracleA "d1"
        { workflowID := "w1", runID := "not-a-uuid" } 7 state0 =
      (Except.error (Err.badRequest "RunID is not valid UUID."),
       { state0 with trace := state0.trace ++
           [Event.incCounter HistoryCacheGetOrCreateScope CacheRequests,
            Event.incCounter HistoryCacheGetOrCreateScope CacheFailures,
            Event.stopTimer HistoryCacheGetOrCreateScope CacheLatency] }) :=
  (claim7_theorem cache0 oracleA "d1" "w1" "not-a-uuid" 7 state0).2.1
    (by decide) (by decide) rfl

/-- Claim C8: with an empty runID both facade entry points resolve the
current run by running GetCurrentExecution(domainID, workflowID) through
the retry executor with the transiency predicate; a resolution failure is
propagated unchanged with no Context constructed, while a resolved run id
is substituted into the execution, so a successful acquisition's release
handle captures the key formed from the resolved run id. -/
theorem claim8_theorem (c : Cache) (o : Oracle) (d : String) (ex : WorkflowExecution)
    (cs : Nat) (st : CacheState) (rid' : String) (e : Err)
    (hw : ¬ ex.workflowID = "") (hr : ex.runID = "") :
    (throttleRetryDo isTransientError
        (o.getCurrentExecution { domainID := d, workflowID := ex.workflowID }) 0 o.retryFuel =
          Except.error e →
       GetOrCreateWorkflowExecution c o d ex cs st =
         (Except.error e,
          { st with trace := st.trace ++
              [Event.incCounter HistoryCacheGetOrCreateScope CacheRequests,
               Event.incCounter HistoryCacheGetCurrentExecutionScope CacheRequests,
               Event.incCounter HistoryCacheGetCurrentExecutionScope CacheFailures,
               Event.stopTimer HistoryCacheGetCurrentExecutionScope CacheLatency,
               Event.incCounter HistoryCacheGetOrCreateScope CacheFailures,
               Event.stopTimer HistoryCacheGetOrCreateScope CacheLatency] })) ∧
    (throttleRetryDo isTransientError
        (o.getCurrentExecution { domainID := d, workflowID := ex.workflowID }) 0 o.retryFuel =
          Except.error e →
       GetAndCreateWorkflowExecution c o d ex st =
         (Except.error e,
          { st with trace := st.trace ++
              [Event.incCounter HistoryCacheGetAndCreateScope CacheRequests,
               Event.incCounter HistoryCacheGetCurrentExecutionScope CacheRequests,
               Event.incCounter HistoryCacheGetCurrentExecutionScope CacheFailures,
               Event.stopTimer HistoryCacheGetCurrentExecutionScope CacheLatency,
               Event.incCounter HistoryCacheGetAndCreateScope CacheFailures,
               Event.stopTimer HistoryCacheGetAndCreateScope CacheLatency] })) ∧
    (throttleRetryDo isTransientError
        (o.getCurrentExecution { domainID := d, workflowID := ex.workflowID }) 0 o.retryFuel =
          Except.ok rid' →
       validateWorkflowExecutionInfo o d ex st =
         (Except.ok { ex with runID := rid' },
          { st with trace := st.trace ++
              [Event.incCounter HistoryCacheGetCurrentExecutionScope CacheRequests,
               Event.stopTimer HistoryCacheGetCurrentExecutionScope CacheLatency] })) ∧
    (throttleRetryDo isTransientError
        (o.getCurrentExecution { domainID := d, workflowID := ex.workflowID }) 0 o.retryFuel =
          Except.ok rid' →
       c.disabled = false → o.lockResult = none → o.capacityFail = false →
       ∃ res, (GetOrCreateWorkflowExecution c o d ex cs st).1 = Except.ok res ∧
         ∃ hh, res.releaseFunc = ReleaseFuncModel.handle hh ∧
           hh.key = NewWorkflowIdentifier d ex.workflowID rid') := by
  refine ⟨?_, ?_, ?_, ?_⟩
  · intro hretry
    simp [GetOrCreateWorkflowExecution, validateWorkflowExecutionInfo, hw, hr,
      getCurrentExecutionWithRetry, hretry, emit, List.append_assoc]
  · intro hretry
    simp [GetAndCreateWorkflowExecution, validateWorkflowExecutionInfo, hw, hr,
      getCurrentExecutionWithRetry, hretry, emit, List.append_assoc]
  · intro hretry
    simp [validateWorkflowExecutionInfo, hw, hr, getCurrentExecutionWithRetry, hretry, emit,
      List.append_assoc]
  · intro hretry hd hl hcf
    obtain ⟨res, hok, hrel, _⟩ := internal_ok_handle c o d { ex with runID := rid' }
      HistoryCacheGetOrCreateScope false cs
      { st with trace := st.trace ++
          [Event.incCounter HistoryCacheGetOrCreateScope CacheRequests] ++
          [Event.incCounter HistoryCacheGetCurrentExecutionScope CacheRequests] ++
          [Event.stopTimer HistoryCacheGetCurrentExecutionScope CacheLatency] }
      hd hl hcf
    refine ⟨res, ?_, ⟨_, hrel, rfl⟩⟩
    rcases hint : getOrCreateWorkflowExecutionInternal c o d { ex with runID := rid' }
        HistoryCacheGetOrCreateScope false cs
        { st with trace := st.trace ++
            [Event.incCounter HistoryCacheGetOrCreateScope CacheRequests] ++
            [Event.incCounter HistoryCacheGetCurrentExecutionScope CacheRequests] ++
            [Event.stopTimer HistoryCacheGetCurrentExecutionScope CacheLatency] } with
      ⟨r, st₃⟩
    rw [hint] at hok
    simp only [GetOrCreateWorkflowExecution, validateWorkflowExecutionInfo, hw,
      Bool.false_eq_true, if_false, hr, if_true, getCurrentExecutionWithRetry, hretry, emit]
    rw [hint]
    exact hok

/-- Claim C8 witness: with the resolver answering "r9", a successful
GetOrCreateWorkflowExecution for ("d1", "w1", empty runID) hands out a
release handle for the key ("d1", "w1", "r9"). -/
theorem claim8_witness :
    ∃ res, (GetOrCreateWorkflowExecution cache0 oracleA "d1"
        { workflowID := "w1", runID := "" } 7 state0).1 = Except.ok res ∧
      ∃ hh, res.releaseFunc = ReleaseFuncModel.handle hh ∧
        hh.key = NewWorkflowIdentifier "d1" "w1" "r9" :=
  (claim8_theorem cache0 oracleA "d1" { workflowID := "w1", runID := "" } 7 state0 "r9"
    Err.canceled (by decide) rfl).2.2.2 rfl rfl rfl rfl

/-- Validation only emits metric events: it never touches the map, the
Context registry or the identity counter. -/
theorem validate_preserves (o : Oracle) (d : String) (ex : WorkflowExecution)
    (st : CacheState) :
    (validateWorkflowExecutionInfo o d ex st).2.entries = st.entries ∧
    (validateWorkflowExecutionInfo o d ex st).2.contexts = st.contexts ∧
    (validateWorkflowExecutionInfo o d ex st).2.nextCtxId = st.nextCtxId := by
  by_cases h1 : ex.workflowID = ""
  · simp [validateWorkflowExecutionInfo, h1]
  · by_cases h2 : ex.runID = ""
    · cases hret : throttleRetryDo isTransientError
          (o.getCurrentExecution { domainID := d, workflowID := ex.workflowID }) 0
          o.retryFuel with
      | ok rid =>
        simp [validateWorkflowExecutionInfo, h1, h2, getCurrentExecutionWithRetry, hret, emit]
      | error e =>
        simp [validateWorkflowExecutionInfo, h1, h2, getCurrentExecutionWithRetry, hret, emit]
    · by_cases h3 : o.uuidParse ex.runID = false
      · simp [validateWorkflowExecutionInfo, h1, h2, h3]
      · simp [validateWorkflowExecutionInfo, h1, h2, h3]

/-- Claim C9: every successful GetAndCreateWorkflowExecution constructs a
second, uncached Context: its identity is registered for this domain but
resident nowhere in the map; on a hit it differs from the cached Context
returned alongside it and is bound to the same key the release handle
captures; on a miss the cached result is absent, the release function is
the no-op, and the fresh Context is still returned. -/
theorem claim9_theorem (c : Cache) (o : Oracle) (d : String) (ex : WorkflowExecution)
    (st : CacheState) (r : GetAndCreateResult)
    (hwf : StateWF st)
    (hres : (GetAndCreateWorkflowExecution c o d ex st).1 = Except.ok r) :
    (∀ e ∈ (GetAndCreateWorkflowExecution c o d ex st).2.entries, e.ctxId ≠ r.fromDB) ∧
    (∃ rec ∈ (GetAndCreateWorkflowExecution c o d ex st).2.contexts,
       rec.id = r.fromDB ∧ rec.domainID = d) ∧
    (r.cacheHit = true →
       ∃ cid, r.fromCache = some cid ∧ cid ≠ r.fromDB ∧
         ∃ hh, r.releaseFunc = ReleaseFuncModel.handle hh ∧
           ∃ rec ∈ (GetAndCreateWorkflowExecution c o d ex st).2.contexts,
             rec.id = r.fromDB ∧
             hh.key = NewWorkflowIdentifier rec.domainID rec.execution.workflowID
               rec.execution.runID) ∧
    (r.cacheHit = false → r.fromCache = none ∧ r.releaseFunc = ReleaseFuncModel.noop) := by
  rcases hv : validateWorkflowExecutionInfo o d ex
      (emit st (Event.incCounter HistoryCacheGetAndCreateScope CacheRequests)) with ⟨vres, st₂⟩
  have hpres := validate_preserves o d ex
    (emit st (Event.incCounter HistoryCacheGetAndCreateScope CacheRequests))
  rw [hv] at hpres
  have hent : st₂.entries = st.entries := hpres.1
  have hctx : st₂.contexts = st.contexts := hpres.2.1
  have hnext : st₂.nextCtxId = st.nextCtxId := hpres.2.2
  cases vres with
  | error e =>
    simp only [GetAndCreateWorkflowExecution, hv] at hres
    simp at hres
  | ok ex' =>
    simp only [GetAndCreateWorkflowExecution, hv] at hres ⊢
    cases hfind : st₂.entries.find?
        (fun en => decide (en.key = NewWorkflowIdentifier d ex'.workflowID ex'.runID)) with
    | none =>
      simp only [cacheGetSt, cacheGet, hfind, newContext, emit] at hres ⊢
      simp only [Except.ok.injEq] at hres
      subst hres
      refine ⟨?_, ?_, ?_, ?_⟩
      · intro e he
        simp only at he ⊢
        rw [hent] at he
        rw [hnext]
        exact Nat.ne_of_lt (hwf e he)
      · refine ⟨{ id := st₂.nextCtxId, domainID := d, execution := ex' }, ?_, rfl, rfl⟩
        simp
      · intro h
        simp at h
      · intro h
        exact ⟨rfl, rfl⟩
    | some e₀ =>
      have hp := List.find?_some hfind
      simp only [decide_eq_true_eq] at hp
      have hmem : e₀ ∈ st₂.entries := List.mem_of_find?_eq_some hfind
      have hlt : e₀.ctxId < st.nextCtxId := hwf e₀ (hent ▸ hmem)
      cases hlr : o.lockResult with
      | some e =>
        simp only [cacheGetSt, cacheGet, hfind, hlr] at hres
        simp at hres
      | none =>
        simp only [cacheGetSt, cacheGet, hfind, hlr, makeReleaseFunc, newContext,
          emit] at hres ⊢
        simp only [Except.ok.injEq] at hres
        subst hres
        refine ⟨?_, ?_, ?_, ?_⟩
        · intro e he
          simp only at he ⊢
          obtain ⟨a, ha, hae⟩ := List.mem_map.mp he
          rw [← hae, bumpPin_ctxId, hnext]
          exact Nat.ne_of_lt (hwf a (hent ▸ ha))
        · refine ⟨{ id := st₂.nextCtxId, domainID := d, execution := ex' }, ?_, rfl, rfl⟩
          simp
        · intro _
          refine ⟨e₀.ctxId, rfl, ?_, ?_⟩
          · simp only
            rw [hnext]
            exact Nat.ne_of_lt hlt
          · refine ⟨_, rfl, ?_⟩
            refine ⟨{ id := st₂.nextCtxId, domainID := d, execution := ex' }, ?_, rfl, rfl⟩
            simp
        · intro h
          simp at h

/-- Claim C9 witness: on a state caching ("d1","w1","r1") as Context 0,
the diagnostic acquisition returns the cached Context 0 and a distinct,
uncached fresh Context 1. -/
theorem claim9_witness :
    (∀ e ∈ (GetAndCreateWorkflowExecution cache0 oracleA "d1"
        { workflowID := "w1", runID := "r1" } stateR1).2.entries,
       e.ctxId ≠ ({ fromCache := some 0, fromDB := 1,
                    releaseFunc := ReleaseFuncModel.handle
                      { key := NewWorkflowIdentifier "d1" "w1" "r1", ctxId := 0,
                        forceClearContext := false,
                        callerScope := HistoryCacheGetAndCreateScope, domainName := "",
                        status := cacheNotReleased },
                    cacheHit := true } : GetAndCreateResult).fromDB) ∧
    (∃ rec ∈ (GetAndCreateWorkflowExecution cache0 oracleA "d1"
        { workflowID := "w1", runID := "r1" } stateR1).2.contexts,
       rec.id = ({ fromCache := some 0, fromDB := 1,
                   releaseFunc := ReleaseFuncModel.handle
                     { key := NewWorkflowIdentifier "d1" "w1" "r1", ctxId := 0,
                       forceClearContext := false,
                       callerScope := HistoryCacheGetAndCreateScope, domainName := "",
                       status := cacheNotReleased },
                   cacheHit := true } : GetAndCreateResult).fromDB ∧ rec.domainID = "d1") ∧
    (({ fromCache := some 0, fromDB := 1,
        releaseFunc := ReleaseFuncModel.handle
          { key := NewWorkflowIdentifier "d1" "w1" "r1", ctxId := 0,
            forceClearContext := false, callerScope := HistoryCacheGetAndCreateScope,
            domainName := "", status := cacheNotReleased },
        cacheHit := true } : GetAndCreateResult).cacheHit = true →
       ∃ cid, ({ fromCache := some 0, fromDB := 1,
                 releaseFunc := ReleaseFuncModel.handle
                   { key := NewWorkflowIdentifier "d1" "w1" "r1", ctxId := 0,
                     forceClearContext := false,
                     callerScope := HistoryCacheGetAndCreateScope, domainName := "",
                     status := cacheNotReleased },
                 cacheHit := true } : GetAndCreateResult).fromCache = some cid ∧
         cid ≠ ({ fromCache := some 0, fromDB := 1,
                  releaseFunc := ReleaseFuncModel.handle
                    { key := NewWorkflowIdentifier "d1" "w1" "r1", ctxId := 0,
                      forceClearContext := false,
                      callerScope := HistoryCacheGetAndCreateScope, domainName := "",
                      status := cacheNotReleased },
                  cacheHit := true } : GetAndCreateResult).fromDB ∧
         ∃ hh, ({ fromCache := some 0, fromDB := 1,
                  releaseFunc := ReleaseFuncModel.handle
                    { key := NewWorkflowIdentifier "d1" "w1" "r1", ctxId := 0,
                      forceClearContext := false,
                      callerScope := HistoryCacheGetAndCreateScope, domainName := "",
                      status := cacheNotReleased },
                  cacheHit := true } : GetAndCreateResult).releaseFunc =
             ReleaseFuncModel.handle hh ∧
           ∃ rec ∈ (GetAndCreateWorkflowExecution cache0 oracleA "d1"
               { workflowID := "w1", runID := "r1" } stateR1).2.contexts,
             rec.id = ({ fromCache := some 0, fromDB := 1,
                         releaseFunc := ReleaseFuncModel.handle
                           { key := NewWorkflowIdentifier "d1" "w1" "r1", ctxId := 0,
                             forceClearContext := false,
                             callerScope := HistoryCacheGetAndCreateScope, domainName := "",
                             status := cacheNotReleased },
                         cacheHit := true } : GetAndCreateResult).fromDB ∧
             hh.key = NewWorkflowIdentifier rec.domainID rec.execution.workflowID
               rec.execution.runID) ∧
    (({ fromCache := some 0, fromDB := 1,
        releaseFunc := ReleaseFuncModel.handle
          { key := NewWorkflowIdentifier "d1" "w1" "r1", ctxId := 0,
            forceClearContext := false, callerScope := HistoryCacheGetAndCreateScope,
            domainName := "", status := cacheNotReleased },
        cacheHit := true } : GetAndCreateResult).cacheHit = false →
       ({ fromCache := some 0, fromDB := 1,
          releaseFunc := ReleaseFuncModel.handle
            { key := NewWorkflowIdentifier "d1" "w1" "r1", ctxId := 0,
              forceClearContext := false, callerScope := HistoryCacheGetAndCreateScope,
              domainName := "", status := cacheNotReleased },
          cacheHit := true } : GetAndCreateResult).fromCache = none ∧
       ({ fromCache := some 0, fromDB := 1,
          releaseFunc := ReleaseFuncModel.handle
            { key := NewWorkflowIdentifier "d1" "w1" "r1", ctxId := 0,
              forceClearContext := false, callerScope := HistoryCacheGetAndCreateScope,
              domainName := "", status := cacheNotReleased },
          cacheHit := true } : GetAndCreateResult).releaseFunc = ReleaseFuncModel.noop) :=
  claim9_theorem cache0 oracleA "d1" { workflowID := "w1", runID := "r1" } stateR1
    { fromCache := some 0, fromDB := 1,
      releaseFunc := ReleaseFuncModel.handle
        { key := NewWorkflowIdentifier "d1" "w1" "r1", ctxId := 0,
          forceClearContext := false, callerScope := HistoryCacheGetAndCreateScope,
          domainName := "", status := cacheNotReleased },
      cacheHit := true }
    (by simp [StateWF, stateR1, entryR1]) rfl

end Cadence
